import Mathlib

/-!
Verification of the kernel-debugger protocol in src/async_wake_ios/kdbg.c.

The development shallowly embeds the pure content of the C code: kernel
memory is a word store (byte address of an 8-byte-aligned slot mapped to the
64-bit value stored there; the program only ever accesses slots at mutually
8-aligned offsets), register snapshots are records, and each scanning loop
of the source is a fuel-bounded recursive function whose fuel equals the
loop bound of the source.

Numeric layout facts (the snapshot flavor tag, the element count, the byte
size of a context record and the byte offsets of its sp and pc fields) come
from the repository header arm64_state.h, which is not part of src/; they
are modelled from the spec as fixed constants and every theorem below treats
them as opaque discriminators and offsets.
-/

set_option maxRecDepth 100000

namespace Kdbg

/-- Modelled from the spec: the Register Snapshot flavor tag, the "fixed
flavor marker identifying a full 64-bit general+status register block".
Declared in the repository header arm64_state.h, which is not under src/;
all results below depend only on it being a fixed discriminator value. -/
def ARM_SAVED_STATE64 : Nat := 8

/-- Modelled from the spec: the element-count half of the Snapshot tag,
from the repository header arm64_state.h (not under src/). -/
def ARM_SAVED_STATE64_COUNT : Nat := 72

/-- The 64-bit word both scanners compare stack words against:
ARM_SAVED_STATE64 with ARM_SAVED_STATE64_COUNT in the high 32 bits
(kdbg.c lines 579 and 610). -/
def tag_and_count : Nat := ARM_SAVED_STATE64 ||| (ARM_SAVED_STATE64_COUNT <<< 32)

/-- Modelled from the spec: byte size of a full snapshot record
(arm_context_t, header plus 64-bit register block plus vector block),
from the repository header arm64_state.h (not under src/). -/
def SIZEOF_ARM_CONTEXT : Nat := 848

/-- Modelled from the spec: byte offset of the pc field inside a snapshot
record (8-byte header, 29 general registers, fp, lr, sp precede it),
from the repository header arm64_state.h (not under src/). -/
def PC_OFF : Nat := 264

/-- Modelled from the spec: byte offset of the sp field inside a snapshot
record, from the repository header arm64_state.h (not under src/). -/
def SP_OFF : Nat := 256

/-- Kernel memory as a word store: a byte address holding an 8-byte-aligned
slot is mapped to the 64-bit value stored there. -/
abbrev Mem := Nat → Nat

/-- The WAIT_SPIN window scan of kdbg.c lines 577-593: walk the 128 copied
stack words; skip a word whose value is not the tag-and-count constant;
skip a tag-matching word whose decoded snapshot pc (the word 33 slots
higher, byte offset 264 = 8 * 33) is not the spin-loop address; stop at the
first word passing both tests. The second component counts loop iterations
(probes) performed. -/
def scanOuterAux (stack : Nat → Nat) (looper_pc : Nat) : Nat → Nat → Option Nat × Nat
  | _, 0 => (none, 0)
  | i, fuel + 1 =>
    if stack i ≠ tag_and_count then
      ((scanOuterAux stack looper_pc (i + 1) fuel).1,
       (scanOuterAux stack looper_pc (i + 1) fuel).2 + 1)
    else if stack (i + 33) ≠ looper_pc then
      ((scanOuterAux stack looper_pc (i + 1) fuel).1,
       (scanOuterAux stack looper_pc (i + 1) fuel).2 + 1)
    else
      (some i, 1)

/-- The full 128-word window scan (the loop bound at kdbg.c line 577). -/
def scanOuter (stack : Nat → Nat) (looper_pc : Nat) : Option Nat × Nat :=
  scanOuterAux stack looper_pc 0 128

/-- The address the monitor reports for the outer snapshot:
looper_saved_state = sp + i * sizeof(uint64_t) (kdbg.c line 590). -/
def waitSpinFoundAddr (sp : Nat) (stack : Nat → Nat) (looper_pc : Nat) : Option Nat :=
  Option.map (fun i => sp + 8 * i) (scanOuter stack looper_pc).1

theorem scanOuterAux_probes_le (stack : Nat → Nat) (lp : Nat) :
    ∀ fuel i, (scanOuterAux stack lp i fuel).2 ≤ fuel := by
  intro fuel
  induction fuel with
  | zero => intro i; simp [scanOuterAux]
  | succ n ih =>
    intro i
    simp only [scanOuterAux]
    split
    · exact Nat.succ_le_succ (ih (i + 1))
    · split
      · exact Nat.succ_le_succ (ih (i + 1))
      · simp

theorem scanOuterAux_eq_some (stack : Nat → Nat) (lp : Nat) :
    ∀ fuel i k, (scanOuterAux stack lp i fuel).1 = some k →
      i ≤ k ∧ k < i + fuel ∧ stack k = tag_and_count ∧ stack (k + 33) = lp ∧
      ∀ j, i ≤ j → j < k → ¬(stack j = tag_and_count ∧ stack (j + 33) = lp) := by
  intro fuel
  induction fuel with
  | zero => intro i k h; simp [scanOuterAux] at h
  | succ n ih =>
    intro i k h
    simp only [scanOuterAux] at h
    by_cases h1 : stack i ≠ tag_and_count
    · rw [if_pos h1] at h
      obtain ⟨hik, hkn, htag, hpc, hfirst⟩ := ih (i + 1) k h
      refine ⟨by omega, by omega, htag, hpc, ?_⟩
      intro j hij hjk hmatch
      rcases Nat.eq_or_lt_of_le hij with rfl | hlt
      · exact h1 hmatch.1
      · exact hfirst j hlt hjk hmatch
    · rw [if_neg h1] at h
      by_cases h2 : stack (i + 33) ≠ lp
      · rw [if_pos h2] at h
        obtain ⟨hik, hkn, htag, hpc, hfirst⟩ := ih (i + 1) k h
        refine ⟨by omega, by omega, htag, hpc, ?_⟩
        intro j hij hjk hmatch
        rcases Nat.eq_or_lt_of_le hij with rfl | hlt
        · exact h2 hmatch.2
        · exact hfirst j hlt hjk hmatch
      · rw [if_neg h2] at h
        simp only [Prod.fst, Option.some.injEq] at h
        subst h
        refine ⟨Nat.le_refl i, by omega, not_not.mp h1, not_not.mp h2, ?_⟩
        intro j hij hjk
        omega

theorem scanOuterAux_complete (stack : Nat → Nat) (lp : Nat) :
    ∀ fuel i k, i ≤ k → k < i + fuel → stack k = tag_and_count → stack (k + 33) = lp →
      ∃ j, j ≤ k ∧ (scanOuterAux stack lp i fuel).1 = some j := by
  intro fuel
  induction fuel with
  | zero => intro i k h1 h2; omega
  | succ n ih =>
    intro i k hik hkn htag hpc
    simp only [scanOuterAux]
    by_cases h1 : stack i ≠ tag_and_count
    · rw [if_pos h1]
      have hne : i ≠ k := fun he => h1 (he ▸ htag)
      obtain ⟨j, hjk, hj⟩ := ih (i + 1) k (by omega) (by omega) htag hpc
      exact ⟨j, hjk, hj⟩
    · rw [if_neg h1]
      by_cases h2 : stack (i + 33) ≠ lp
      · rw [if_pos h2]
        have hne : i ≠ k := fun he => h2 (he ▸ hpc)
        obtain ⟨j, hjk, hj⟩ := ih (i + 1) k (by omega) (by omega) htag hpc
        exact ⟨j, hjk, hj⟩
      · rw [if_neg h2]
        exact ⟨i, hik, rfl⟩

/-- Claim C1: over the 128-word stack window copied from the debuggee's
saved stack pointer, the WAIT_SPIN scanner selects as the outer snapshot
the first (lowest-index) word whose value is the tag-and-count constant and
whose decoded snapshot pc (33 words higher) is the spin-loop address,
reporting its address as sp + 8 * i; it never selects a word whose tag does
not match; it performs at most 128 probes; and whenever the window contains
a matching snapshot it finds one (in particular, with exactly one match it
locates that one within the 128-probe bound). -/
theorem c1_wait_spin_outer_scan (stack : Nat → Nat) (lp sp : Nat) :
    (∀ i, (scanOuter stack lp).1 = some i →
        stack i = tag_and_count ∧ stack (i + 33) = lp ∧ i < 128 ∧
        waitSpinFoundAddr sp stack lp = some (sp + 8 * i) ∧
        ∀ j, j < i → ¬(stack j = tag_and_count ∧ stack (j + 33) = lp))
    ∧ (scanOuter stack lp).2 ≤ 128
    ∧ (∀ i, i < 128 → stack i = tag_and_count → stack (i + 33) = lp →
        ∃ j, j ≤ i ∧ (scanOuter stack lp).1 = some j) := by
  refine ⟨?_, scanOuterAux_probes_le stack lp 128 0, ?_⟩
  · intro i hi
    obtain ⟨-, h2, h3, h4, h5⟩ := scanOuterAux_eq_some stack lp 128 0 i hi
    refine ⟨h3, h4, by omega, ?_, fun j hj => h5 j (Nat.zero_le j) hj⟩
    simp only [waitSpinFoundAddr, hi, Option.map_some']
  · intro i hi h1 h2
    exact scanOuterAux_complete stack lp 128 0 i (Nat.zero_le i) (by omega) h1 h2

/-- A concrete 128-word window with a single valid snapshot at index 5
(its pc word sits at index 5 + 33 = 38). -/
def c1Stack : Nat → Nat :=
  fun j => if j = 5 then tag_and_count else if j = 38 then 77 else 0

theorem c1_wait_spin_outer_scan_witness :
    c1Stack 5 = tag_and_count ∧ c1Stack 38 = 77 ∧
    waitSpinFoundAddr 1000 c1Stack 77 = some 1040 ∧
    ¬(c1Stack 0 = tag_and_count ∧ c1Stack 33 = 77) := by
  have h := (c1_wait_spin_outer_scan c1Stack 77 1000).1 5 (by decide)
  exact ⟨h.1, h.2.1, h.2.2.2.1, h.2.2.2.2 0 (by decide)⟩

/-- A single 64-bit kernel write, wk64 of kmem (kdbg.c line 650 uses it to
patch the outer snapshot pc). -/
def wk64 (m : Mem) (a v : Nat) : Mem :=
  fun x => if x = a then v else m x

/-- The local copy kmemcpy makes of a snapshot record: word k of the copy is
the word at byte address a + 8 * k (kdbg.c lines 616 and 639). -/
def readCtx (m : Mem) (a : Nat) : Nat → Nat :=
  fun k => m (a + 8 * k)

/-- The kmemcpy writing a snapshot record back to kernel memory at byte
address a (kdbg.c line 647): the 106 words of the record land in the
8-aligned slots of the 848-byte region starting at a. -/
def writeCtx (m : Mem) (a : Nat) (c : Nat → Nat) : Mem :=
  fun x =>
    if a ≤ x ∧ x < a + SIZEOF_ARM_CONTEXT ∧ (x - a) % 8 = 0 then c ((x - a) / 8) else m x

/-- DISPATCH_CALLBACK plus PATCH_AND_RESUME (kdbg.c lines 638-650): copy the
trap snapshot at address trap into a local record, let the callback mutate
the copy, kmemcpy the mutated copy back to trap, then overwrite the outer
snapshot pc field (byte offset 264) with the epilogue address. -/
def patchAndResume (m : Mem) (trap outer epilog : Nat)
    (cb : (Nat → Nat) → Nat → Nat) : Mem :=
  wk64 (writeCtx m trap (cb (readCtx m trap))) (outer + PC_OFF) epilog

/-- Claim C2: after the callback has mutated the copied trap snapshot,
PATCH_AND_RESUME leaves the trap-snapshot region equal exactly to the
callback's modified copy (slots the callback left alone keep the value that
was read), and of the outer snapshot only the pc field changes, to the fixed
epilogue address; every other outer-snapshot slot is untouched. The
hypothesis records the layout fact that the trap snapshot lies at or above
the end of the outer snapshot, which holds by construction of the trap scan
(it starts at outer + sizeof and only moves up). -/
theorem c2_patch_and_resume_effects (m : Mem) (trap outer epilog : Nat)
    (cb : (Nat → Nat) → Nat → Nat) (h : outer + SIZEOF_ARM_CONTEXT ≤ trap) :
    (∀ k, k < 106 →
        patchAndResume m trap outer epilog cb (trap + 8 * k) = cb (readCtx m trap) k)
    ∧ patchAndResume m trap outer epilog cb (outer + PC_OFF) = epilog
    ∧ (∀ k, k < 106 → 8 * k ≠ PC_OFF →
        patchAndResume m trap outer epilog cb (outer + 8 * k) = m (outer + 8 * k))
    ∧ (∀ k, k < 106 → cb (readCtx m trap) k = readCtx m trap k →
        patchAndResume m trap outer epilog cb (trap + 8 * k) = m (trap + 8 * k)) := by
  have hsz : SIZEOF_ARM_CONTEXT = 848 := rfl
  have hpc : PC_OFF = 264 := rfl
  refine ⟨?_, ?_, ?_, ?_⟩
  · intro k hk
    unfold patchAndResume wk64 writeCtx
    rw [if_neg (by omega), if_pos ⟨by omega, by omega, by omega⟩]
    congr 1
    omega
  · unfold patchAndResume wk64
    rw [if_pos rfl]
  · intro k hk hkpc
    unfold patchAndResume wk64 writeCtx
    rw [if_neg (by omega), if_neg (by omega)]
  · intro k hk hcb
    unfold patchAndResume wk64 writeCtx
    rw [if_neg (by omega), if_pos ⟨by omega, by omega, by omega⟩]
    rw [show (trap + 8 * k - trap) / 8 = k by omega]
    rw [hcb]
    rfl

/-- Concrete memory for the C2 witness: every slot holds its own address. -/
def c2Mem : Mem := fun x => x

/-- Concrete callback for the C2 witness: it rewrites word 33 (the pc slot)
of the copy and leaves everything else alone. -/
def c2Cb : (Nat → Nat) → Nat → Nat :=
  fun c k => if k = 33 then 999 else c k

theorem c2_patch_and_resume_effects_witness :
    patchAndResume c2Mem 2000 1000 42 c2Cb (2000 + 8 * 33) = c2Cb (readCtx c2Mem 2000) 33
    ∧ patchAndResume c2Mem 2000 1000 42 c2Cb (1000 + PC_OFF) = 42
    ∧ patchAndResume c2Mem 2000 1000 42 c2Cb (1000 + 8 * 5) = c2Mem (1000 + 8 * 5) := by
  have h := c2_patch_and_resume_effects c2Mem 2000 1000 42 c2Cb (by decide)
  exact ⟨h.1 33 (by decide), h.2.1, h.2.2.1 5 (by decide) (by decide)⟩

/-- Outcome of one iteration of the inner WAIT_SPIN polling loop
(kdbg.c lines 528-600). -/
inductive PollStep where
  | terminated : PollStep
  | retryNow : PollStep
  | found : Nat → PollStep
deriving DecidableEq

/-- The addresses kmemcpy reads when copying the scheduled-off snapshot
record at kstackptr (kdbg.c line 548). -/
def ctxReads (a : Nat) : List Nat :=
  (List.range 106).map (fun k => a + 8 * k)

/-- The addresses kmemcpy reads when copying the 128-word stack window at
sp (kdbg.c line 572). -/
def windowReads (sp : Nat) : List Nat :=
  (List.range 128).map (fun k => sp + 8 * k)

/-- One iteration of the inner WAIT_SPIN polling loop (kdbg.c lines
528-600), paired with the trace of kernel addresses it reads. If the
completion flag is set the function returns at once (kdbg.c lines 529-531)
reading nothing. Otherwise it reads the kstack pointer slot, copies the
scheduled-off snapshot stored there, and takes its sp field (byte offset
256); a null sp retries the loop (kdbg.c lines 554-556); otherwise it
copies the 128-word window at sp and scans it; a hit yields the outer
snapshot address sp + 8 * i (kdbg.c line 590); a miss prints, sleeps and
RETURNS from the function (kdbg.c lines 595-599). -/
def waitSpinPoll (flag : Bool) (m : Mem) (kstackptrAddr looper_pc : Nat) :
    PollStep × List Nat :=
  if flag then (PollStep.terminated, [])
  else
    (fun kstackptr =>
      (fun sp =>
        if sp = 0 then (PollStep.retryNow, kstackptrAddr :: ctxReads kstackptr)
        else
          match (scanOuter (fun k => m (sp + 8 * k)) looper_pc).1 with
          | some i =>
              (PollStep.found (sp + 8 * i),
               (kstackptrAddr :: ctxReads kstackptr) ++ windowReads sp)
          | none =>
              (PollStep.terminated,
               (kstackptrAddr :: ctxReads kstackptr) ++ windowReads sp))
        (m (kstackptr + SP_OFF)))
      (m kstackptrAddr)

/-- Claim C8: when the completion flag is already set at the start of a
WAIT_SPIN polling iteration, the monitor returns in that iteration having
performed no kernel-memory read of the debuggee's stack and no stack scan:
the read trace is empty. -/
theorem c8_completion_flag_short_circuit (m : Mem) (kstackptrAddr looper_pc : Nat) :
    waitSpinPoll true m kstackptrAddr looper_pc = (PollStep.terminated, []) := rfl

/-- Concrete memory for the C3 evaluation: the kstack pointer slot at
address 0 holds 512, the sp field of the record at 512 (byte offset 256,
so address 768) holds 4096, and the whole 128-word window at 4096 holds
zeros, so no word matches the tag-and-count constant. -/
def c3Mem : Mem :=
  fun x => if x = 0 then 512 else if x = 768 then 4096 else 0

/-- Claim C3 is violated by the code: on a poll with the completion flag
clear, a nonzero saved sp and a window containing no tag-matching word, the
WAIT_SPIN iteration terminates the monitor (the source executes sleep(1)
followed by return at kdbg.c lines 597-598) instead of retrying; so the
completion flag is not the only way the monitor stops polling. -/
theorem c3_scan_miss_terminates_monitor :
    (waitSpinPoll false c3Mem 0 7).1 = PollStep.terminated
    ∧ (waitSpinPoll false c3Mem 0 7).1 ≠ PollStep.retryNow := by
  constructor
  · decide
  · decide

/-- The LOCATE_TRAP scan of kdbg.c lines 606-630: starting from a byte
address, read the 64-bit word there; on a tag mismatch advance the cursor by
8 bytes and keep going; on a tag match stop with the cursor unchanged. The
result is the final cursor address, whether a tag was found, and the number
of probes (loop iterations) performed. After fuel runs out the cursor sits
one word past the last probed address, exactly like the C variable
bp_hitting_state after the loop. -/
def scanTrapAux (m : Mem) : Nat → Nat → Nat × Bool × Nat
  | addr, 0 => (addr, false, 0)
  | addr, fuel + 1 =>
    if m addr ≠ tag_and_count then
      ((scanTrapAux m (addr + 8) fuel).1,
       (scanTrapAux m (addr + 8) fuel).2.1,
       (scanTrapAux m (addr + 8) fuel).2.2 + 1)
    else
      (addr, true, 1)

/-- The full trap-snapshot search: it starts at the outer snapshot address
plus the snapshot size (kdbg.c line 606) and runs for at most 1000 probes
(the loop bound at kdbg.c line 608). -/
def locateTrap (m : Mem) (outer : Nat) : Nat × Bool × Nat :=
  scanTrapAux m (outer + SIZEOF_ARM_CONTEXT) 1000

/-- Whether the source would log the unexpected-breakpoint message at
kdbg.c lines 624-626: a trap snapshot was found and its pc word (byte
offset 264) differs from the expected breakpoint address. Logging is the
only use the trap scan makes of the breakpoint address. -/
def trapPcMismatch (m : Mem) (outer breakpoint : Nat) : Bool :=
  (locateTrap m outer).2.1 && (m ((locateTrap m outer).1 + PC_OFF) != breakpoint)

/-- What handle_kernel_bp_hits computes after WAIT_SPIN has located the
outer snapshot (kdbg.c lines 606-650): the trap cursor, whether the trap
tag was found, the patched memory, and the fact that the callback dispatch
plus write-back plus outer-pc patch run unconditionally. -/
structure BpHitOutcome where
  trapAddr : Nat
  trapFound : Bool
  finalMem : Mem
  dispatched : Bool

/-- The LOCATE_TRAP / DISPATCH_CALLBACK / PATCH_AND_RESUME stretch of
handle_kernel_bp_hits (kdbg.c lines 606-650). The breakpoint address feeds
only the log predicate trapPcMismatch, never the control flow or the
memory effect. -/
def handleHitAfterSpin (m : Mem) (outer breakpoint epilog : Nat)
    (cb : (Nat → Nat) → Nat → Nat) : BpHitOutcome :=
  { trapAddr := (locateTrap m outer).1
    trapFound := (locateTrap m outer).2.1
    finalMem := patchAndResume m (locateTrap m outer).1 outer epilog cb
    dispatched := true }

theorem scanTrapAux_probes_le (m : Mem) :
    ∀ fuel addr, (scanTrapAux m addr fuel).2.2 ≤ fuel := by
  intro fuel
  induction fuel with
  | zero => intro addr; simp [scanTrapAux]
  | succ n ih =>
    intro addr
    simp only [scanTrapAux]
    split
    · exact Nat.succ_le_succ (ih (addr + 8))
    · simp

theorem scanTrapAux_found (m : Mem) :
    ∀ fuel addr a f, scanTrapAux m addr fuel = (a, true, f) →
      1 ≤ f ∧ f ≤ fuel ∧ a = addr + 8 * (f - 1) ∧ m a = tag_and_count ∧
      ∀ j, j < f - 1 → m (addr + 8 * j) ≠ tag_and_count := by
  intro fuel
  induction fuel with
  | zero => intro addr a f h; simp [scanTrapAux] at h
  | succ n ih =>
    intro addr a f h
    simp only [scanTrapAux] at h
    by_cases h1 : m addr ≠ tag_and_count
    · rw [if_pos h1] at h
      rcases hrec : scanTrapAux m (addr + 8) n with ⟨a0, b0, c0⟩
      rw [hrec] at h
      simp only [Prod.mk.injEq] at h
      obtain ⟨ha, hb, hc⟩ := h
      subst ha
      rw [hb] at hrec
      obtain ⟨i1, i2, i3, i4, i5⟩ := ih (addr + 8) a0 c0 hrec
      refine ⟨by omega, by omega, by omega, i4, ?_⟩
      intro j hj
      rcases Nat.eq_zero_or_pos j with rfl | hj1
      · simpa using h1
      · have h5 := i5 (j - 1) (by omega)
        rw [show addr + 8 + 8 * (j - 1) = addr + 8 * j from by omega] at h5
        exact h5
    · rw [if_neg h1] at h
      simp only [Prod.mk.injEq] at h
      obtain ⟨ha, -, hc⟩ := h
      subst ha
      refine ⟨by omega, by omega, by omega, not_not.mp h1, ?_⟩
      intro j hj
      omega

theorem scanTrapAux_exhaust (m : Mem) :
    ∀ fuel addr, (∀ j, j < fuel → m (addr + 8 * j) ≠ tag_and_count) →
      scanTrapAux m addr fuel = (addr + 8 * fuel, false, fuel) := by
  intro fuel
  induction fuel with
  | zero => intro addr h; simp [scanTrapAux]
  | succ n ih =>
    intro addr h
    have h0 : m addr ≠ tag_and_count := by simpa using h 0 (by omega)
    have hrest : ∀ j, j < n → m (addr + 8 + 8 * j) ≠ tag_and_count := by
      intro j hj
      have := h (j + 1) (by omega)
      rw [show addr + 8 * (j + 1) = addr + 8 + 8 * j from by omega] at this
      exact this
    simp only [scanTrapAux, if_pos h0, ih (addr + 8) hrest]
    refine Prod.ext ?_ (Prod.ext rfl rfl)
    simp
    omega

/-- Claim C4: LOCATE_TRAP begins at the outer snapshot address plus the
snapshot size and advances 8 bytes per probe, for at most 1000 probes,
until a word equal to the tag-and-count constant is read; when it finds one
after f probes the cursor is start + 8 * (f - 1), the word there carries
the tag, and no earlier probed word did; and a mismatch between the decoded
trap pc and the expected breakpoint address is only logged: the outcome of
the whole post-scan stretch is identical for any two breakpoint addresses,
and the callback dispatch runs either way. -/
theorem c4_locate_trap_scan (m : Mem) (outer b1 b2 epilog : Nat)
    (cb : (Nat → Nat) → Nat → Nat) :
    (∀ a f, locateTrap m outer = (a, true, f) →
        1 ≤ f ∧ f ≤ 1000 ∧ a = outer + SIZEOF_ARM_CONTEXT + 8 * (f - 1) ∧
        m a = tag_and_count ∧
        ∀ j, j < f - 1 → m (outer + SIZEOF_ARM_CONTEXT + 8 * j) ≠ tag_and_count)
    ∧ (locateTrap m outer).2.2 ≤ 1000
    ∧ handleHitAfterSpin m outer b1 epilog cb = handleHitAfterSpin m outer b2 epilog cb
    ∧ (handleHitAfterSpin m outer b1 epilog cb).dispatched = true := by
  refine ⟨?_, scanTrapAux_probes_le m 1000 (outer + SIZEOF_ARM_CONTEXT), rfl, rfl⟩
  intro a f h
  exact scanTrapAux_found m 1000 (outer + SIZEOF_ARM_CONTEXT) a f h

/-- Concrete memory for the C4 witness: the only tag-and-count word sits
two slots past the start of the trap scan region for outer = 1000, so the
scan finds it on its third probe. -/
def c4Mem : Mem :=
  fun x => if x = 1000 + SIZEOF_ARM_CONTEXT + 16 then tag_and_count else 0

theorem c4_locate_trap_scan_witness :
    (1 : Nat) ≤ 3 ∧
    (1000 + SIZEOF_ARM_CONTEXT + 16 : Nat) = 1000 + SIZEOF_ARM_CONTEXT + 8 * (3 - 1) ∧
    c4Mem (1000 + SIZEOF_ARM_CONTEXT + 16) = tag_and_count := by
  have h := (c4_locate_trap_scan c4Mem 1000 11 12 9 (fun c k => c k)).1
    (1000 + SIZEOF_ARM_CONTEXT + 16) 3 (by decide)
  exact ⟨h.1, h.2.2.1, h.2.2.2.1⟩

/-- Claim C10: when the trap scan exhausts its 1000-probe bound without
finding a tag-valid word, handle_kernel_bp_hits still proceeds: the found
flag is false, the cursor sits at the scan start plus 8 * 1000, and the
final memory is exactly the copy-callback-writeback-patch effect applied at
that cursor address, with the outer snapshot pc overwritten by the epilogue
address; there is no abort path skipping the dispatch. -/
theorem c10_trap_scan_exhaustion_still_dispatches (m : Mem) (outer bp epilog : Nat)
    (cb : (Nat → Nat) → Nat → Nat)
    (h : ∀ j, j < 1000 → m (outer + SIZEOF_ARM_CONTEXT + 8 * j) ≠ tag_and_count) :
    (handleHitAfterSpin m outer bp epilog cb).trapFound = false
    ∧ (handleHitAfterSpin m outer bp epilog cb).trapAddr
        = outer + SIZEOF_ARM_CONTEXT + 8 * 1000
    ∧ (handleHitAfterSpin m outer bp epilog cb).dispatched = true
    ∧ (handleHitAfterSpin m outer bp epilog cb).finalMem
        = patchAndResume m (outer + SIZEOF_ARM_CONTEXT + 8 * 1000) outer epilog cb
    ∧ (handleHitAfterSpin m outer bp epilog cb).finalMem (outer + PC_OFF) = epilog := by
  have hex := scanTrapAux_exhaust m 1000 (outer + SIZEOF_ARM_CONTEXT) h
  have hloc : locateTrap m outer = (outer + SIZEOF_ARM_CONTEXT + 8 * 1000, false, 1000) := hex
  refine ⟨?_, ?_, rfl, ?_, ?_⟩
  · simp [handleHitAfterSpin, hloc]
  · simp [handleHitAfterSpin, hloc]
  · simp [handleHitAfterSpin, hloc]
  · simp only [handleHitAfterSpin]
    unfold patchAndResume wk64
    rw [if_pos rfl]

/-- Concrete all-zero memory for the C10 witness: no word anywhere matches
the tag-and-count constant. -/
def c10Mem : Mem := fun _ => 0

theorem c10_trap_scan_exhaustion_still_dispatches_witness :
    (handleHitAfterSpin c10Mem 0 5 9 (fun c k => c k)).trapFound = false
    ∧ (handleHitAfterSpin c10Mem 0 5 9 (fun c k => c k)).trapAddr
        = 0 + SIZEOF_ARM_CONTEXT + 8 * 1000 := by
  have h := c10_trap_scan_exhaustion_still_dispatches c10Mem 0 5 9 (fun c k => c k)
    (by decide)
  exact ⟨h.1, h.2.1⟩

/-- The fields of an arm_context_t that the forger populates (kdbg.c
lines 323-383): the flavor tag, the general registers x[i], sp, pc and
cpsr. The vector block is never touched by the code and is omitted. -/
structure ArmCtx where
  flavor : Nat
  x : Nat → Nat
  sp : Nat
  pc : Nat
  cpsr : Nat

/-- The zero initialization arm_context_t fake_syscall_args = \x7b0\x7d. -/
def zeroCtx : ArmCtx :=
  { flavor := 0, x := fun _ => 0, sp := 0, pc := 0, cpsr := 0 }

/-- One assignment ctx.ss.ss_64.x[i] = v. -/
def setX (c : ArmCtx) (i v : Nat) : ArmCtx :=
  { c with x := Function.update c.x i v }

/-- The Privileged-Call Request, struct syscall_args of kdbg.c lines
310-313: an operation number and eight word-sized argument slots (arg i for
i at or above 8 is unused and stays 0 in every request the code builds). -/
structure SyscallArgs where
  number : Nat
  arg : Nat → Nat

/-- SPSR bit: asynchronous-abort mask (kdbg.c line 379). -/
def SPSR_A : Nat := 1 <<< 8

/-- SPSR bit: IRQ mask (kdbg.c line 380). -/
def SPSR_I : Nat := 1 <<< 7

/-- SPSR bit: FIQ mask (kdbg.c line 381). -/
def SPSR_F : Nat := 1 <<< 6

/-- SPSR mode field value selecting EL1 with SP_EL0 (kdbg.c line 382). -/
def SPSR_EL1_SP0 : Nat := 0x4

/-- The kernel facts do_syscall_with_pstate_d_unmasked reads through its
collaborators (kdbg.c lines 320-390): the thread's real saved-context
address (ACT_CONTEXT), the thread's kernel stack top, the kernel address
the entry snapshot was copied to, and the fixed mid-entry-handler symbol
KSYMBOL_VALID_LINK_REGISTER. -/
structure KernEnv where
  actContext : Nat
  kstackTop : Nat
  entryKernAddr : Nat
  validLinkRegister : Nat

/-- The entry snapshot fake_syscall_args of kdbg.c lines 330-342: x16 gets
the operation number, x0 through x7 get the eight request arguments, the
flavor is the snapshot tag and cpsr is 0. -/
def buildFakeSyscallArgs (args : SyscallArgs) : ArmCtx :=
  { setX (setX (setX (setX (setX (setX (setX (setX (setX zeroCtx
      16 args.number)
      0 (args.arg 0))
      1 (args.arg 1))
      2 (args.arg 2))
      3 (args.arg 3))
      4 (args.arg 4))
      5 (args.arg 5))
      6 (args.arg 6))
      7 (args.arg 7) with
    flavor := ARM_SAVED_STATE64
    cpsr := 0 }

/-- The dispatch snapshot eret_return_state of kdbg.c lines 349-383: x0 is
the kernel address of the entry snapshot, x1 the synthetic SVC-64 syndrome
0x15 shifted left 26, x2 a don't-care fault address, x21 the thread's real
ACT_CONTEXT address, sp the thread's kernel stack top, pc the fixed
mid-entry-handler address, and cpsr the forged status word. -/
def buildEretReturnState (env : KernEnv) : ArmCtx :=
  { setX (setX (setX (setX zeroCtx
      0 env.entryKernAddr)
      1 (0x15 <<< 26))
      2 0x454545454540)
      21 env.actContext with
    sp := env.kstackTop
    pc := env.validLinkRegister
    cpsr := SPSR_A ||| SPSR_I ||| SPSR_F ||| SPSR_EL1_SP0 }

/-- The kernel facts set_MDSCR_EL1_KDE uses (kdbg.c lines 411-447): the
base of the freshly allocated ROP stack, the MDSCR-setting gadget symbol
and the thread_exception_return symbol. -/
structure KdeEnv where
  ropStackBase : Nat
  setMdscrGadget : Nat
  threadExceptionReturn : Nat

/-- The eret_return_state built by set_MDSCR_EL1_KDE (kdbg.c lines
413-439): sp points into the middle of the ROP stack, x8 carries the KDE
bit for the MSR gadget, pc is the gadget address and cpsr is the same
forged status word as in the proxy. -/
def buildKdeEretState (env : KdeEnv) : ArmCtx :=
  { setX zeroCtx 8 (1 <<< 13) with
    sp := env.ropStackBase + 0xc00
    pc := env.setMdscrGadget
    cpsr := SPSR_A ||| SPSR_I ||| SPSR_F ||| SPSR_EL1_SP0 }

/-- Claim C5: every forged exception-return status word, both the one built
by do_syscall_with_pstate_d_unmasked and the one built by
set_MDSCR_EL1_KDE, has the asynchronous-interrupt mask bits A (bit 8),
I (bit 7) and F (bit 6) set, the debug mask bit D (bit 9) clear, and the
mode field (low four bits) equal to 0x4, selecting EL1 with SP_EL0. -/
theorem c5_forged_status_word (env : KernEnv) (kenv : KdeEnv) :
    ((buildEretReturnState env).cpsr.testBit 8 = true
      ∧ (buildEretReturnState env).cpsr.testBit 7 = true
      ∧ (buildEretReturnState env).cpsr.testBit 6 = true
      ∧ (buildEretReturnState env).cpsr.testBit 9 = false
      ∧ (buildEretReturnState env).cpsr % 16 = 4)
    ∧ ((buildKdeEretState kenv).cpsr.testBit 8 = true
      ∧ (buildKdeEretState kenv).cpsr.testBit 7 = true
      ∧ (buildKdeEretState kenv).cpsr.testBit 6 = true
      ∧ (buildKdeEretState kenv).cpsr.testBit 9 = false
      ∧ (buildKdeEretState kenv).cpsr % 16 = 4) := by
  have h1 : (buildEretReturnState env).cpsr = 452 := rfl
  have h2 : (buildKdeEretState kenv).cpsr = 452 := rfl
  rw [h1, h2]
  decide

/-- Claim C6: for every Privileged-Call Request, the entry snapshot carries
the snapshot flavor tag, the operation number in x16 and the eight request
arguments in x0 through x7, and the dispatch snapshot carries the entry
snapshot's kernel address in x0, the synthetic SVC-64 syndrome in x1, the
thread's real ACT_CONTEXT address in x21, the thread's kernel stack top in
sp, and the fixed mid-entry-handler address in pc. -/
theorem c6_proxy_snapshots (env : KernEnv) (args : SyscallArgs) :
    (buildFakeSyscallArgs args).flavor = ARM_SAVED_STATE64
    ∧ (buildFakeSyscallArgs args).x 16 = args.number
    ∧ (∀ k : Fin 8, (buildFakeSyscallArgs args).x k.val = args.arg k.val)
    ∧ (buildEretReturnState env).x 0 = env.entryKernAddr
    ∧ (buildEretReturnState env).x 1 = 0x15 <<< 26
    ∧ (buildEretReturnState env).x 21 = env.actContext
    ∧ (buildEretReturnState env).sp = env.kstackTop
    ∧ (buildEretReturnState env).pc = env.validLinkRegister := by
  refine ⟨rfl, ?_, ?_, ?_, ?_, ?_, rfl, rfl⟩
  · simp [buildFakeSyscallArgs, setX, zeroCtx, Function.update]
  · intro k
    fin_cases k <;> simp [buildFakeSyscallArgs, setX, zeroCtx, Function.update]
  · simp [buildEretReturnState, setX, zeroCtx, Function.update]
  · simp [buildEretReturnState, setX, zeroCtx, Function.update]
  · simp [buildEretReturnState, setX, zeroCtx, Function.update]

/-- The per-thread live debug-control storage the code patches: the bvr0
and bcr0 slots of the DebugData record (kdbg.c lines 725-738). -/
structure DebugData where
  bvr0 : Nat
  bcr0 : Nat

/-- The control bits forced on manually, ARM_DBG_CR_MODE_CONTROL_ANY
(kdbg.c line 735). -/
def ARM_DBG_CR_MODE_CONTROL_ANY : Nat := 3 <<< 1

/-- Modelled from the spec: the host debug-register API (thread_set_state,
an external collaborator outside this repository) installs the requested
breakpoint address into bvr0 and some sanitized control word into bcr0;
per the spec it sanitizes the match-in-any-mode control field, so the
sanitized word is whatever the code later reads back as bcr0. -/
def hostApiInstall (addr sanitizedBcr : Nat) : DebugData :=
  { bvr0 := addr, bcr0 := sanitizedBcr }

/-- The manual patch of kdbg.c lines 731-738: read bcr0 from the DebugData,
OR in ARM_DBG_CR_MODE_CONTROL_ANY, write it back. -/
def patchModeControlAny (d : DebugData) : DebugData :=
  { d with bcr0 := d.bcr0 ||| ARM_DBG_CR_MODE_CONTROL_ANY }

/-- The arming sequence of run_syscall_with_breakpoint (kdbg.c lines
691-738): API install followed by the manual mode-control patch. -/
def armBreakpoint (addr sanitizedBcr : Nat) : DebugData :=
  patchModeControlAny (hostApiInstall addr sanitizedBcr)

/-- Claim C7: after arming, the live debug-control storage holds bvr0 equal
to the breakpoint address and bcr0 equal to the previously-read bcr0 value
OR-ed with the match-any-mode bits 3 shifted left 1; both match-any-mode
bits (bits 1 and 2) read back set, and every bcr0 bit set before the patch
remains set. -/
theorem c7_arm_breakpoint (addr b : Nat) :
    (armBreakpoint addr b).bvr0 = addr
    ∧ (armBreakpoint addr b).bcr0 = b ||| (3 <<< 1)
    ∧ (armBreakpoint addr b).bcr0.testBit 1 = true
    ∧ (armBreakpoint addr b).bcr0.testBit 2 = true
    ∧ ∀ i, b.testBit i = true → (armBreakpoint addr b).bcr0.testBit i = true := by
  refine ⟨rfl, rfl, ?_, ?_, ?_⟩
  · show (b ||| (3 <<< 1)).testBit 1 = true
    rw [Nat.testBit_lor, show Nat.testBit (3 <<< 1) 1 = true from by decide, Bool.or_true]
  · show (b ||| (3 <<< 1)).testBit 2 = true
    rw [Nat.testBit_lor, show Nat.testBit (3 <<< 1) 2 = true from by decide, Bool.or_true]
  · intro i hi
    show (b ||| (3 <<< 1)).testBit i = true
    rw [Nat.testBit_lor, hi]
    rfl

theorem c7_arm_breakpoint_witness :
    (armBreakpoint 0x1234 0x1E1).bvr0 = 0x1234
    ∧ (armBreakpoint 0x1234 0x1E1).bcr0.testBit 0 = true := by
  have h := c7_arm_breakpoint 0x1234 0x1E1
  exact ⟨h.1, h.2.2.2.2 0 (by decide)⟩

/-- The argument-marshalling loops of run_syscall_with_breakpoint (kdbg.c
lines 758-760) and raw_syscall (kdbg.c lines 799-801): starting from the
zero-initialized arg array, slot i receives the i-th variadic argument for
each i below n_args; indices written are exactly 0 through n_args - 1. -/
def marshalLoop (va : Nat → Nat) : Nat → Nat → Nat
  | 0 => fun _ => 0
  | n + 1 => Function.update (marshalLoop va n) n (va n)

/-- The list of arg indices the loop writes. -/
def marshalIndices (n_args : Nat) : List Nat := List.range n_args

/-- The request run_syscall_with_breakpoint builds and passes to
do_syscall_with_pstate_d_unmasked (kdbg.c lines 753-766). -/
def runSyscallRequest (num n_args : Nat) (va : Nat → Nat) : SyscallArgs :=
  { number := num, arg := marshalLoop va n_args }

/-- The request raw_syscall builds and passes to
do_syscall_with_pstate_d_unmasked (kdbg.c lines 794-807). -/
def rawSyscallRequest (num n_args : Nat) (va : Nat → Nat) : SyscallArgs :=
  { number := num, arg := marshalLoop va n_args }

theorem marshalLoop_lt (va : Nat → Nat) :
    ∀ n i, i < n → marshalLoop va n i = va i := by
  intro n
  induction n with
  | zero => intro i hi; omega
  | succ k ih =>
    intro i hi
    simp only [marshalLoop]
    rcases Nat.lt_succ_iff_lt_or_eq.mp hi with h | rfl
    · rw [Function.update_noteq (by omega)]
      exact ih i h
    · rw [Function.update_same]

theorem marshalLoop_ge (va : Nat → Nat) :
    ∀ n i, n ≤ i → marshalLoop va n i = 0 := by
  intro n
  induction n with
  | zero => intro i hi; rfl
  | succ k ih =>
    intro i hi
    simp only [marshalLoop]
    rw [Function.update_noteq (by omega)]
    exact ih i (by omega)

/-- Claim C9: with n_args at most 8, the marshalling loops of
run_syscall_with_breakpoint and raw_syscall write only slots 0 through
n_args - 1 of the 8-slot request array (every written index is in bounds),
and the request handed to do_syscall_with_pstate_d_unmasked carries the
operation number, exactly the n_args variadic values in order, and zero in
every remaining slot; both functions build the identical request. -/
theorem c9_marshalling_in_bounds (num n_args : Nat) (va : Nat → Nat)
    (h : n_args ≤ 8) :
    (∀ i ∈ marshalIndices n_args, i < 8)
    ∧ (runSyscallRequest num n_args va).number = num
    ∧ (∀ i, i < n_args → (runSyscallRequest num n_args va).arg i = va i)
    ∧ (∀ i, n_args ≤ i → (runSyscallRequest num n_args va).arg i = 0)
    ∧ rawSyscallRequest num n_args va = runSyscallRequest num n_args va := by
  refine ⟨?_, rfl, ?_, ?_, rfl⟩
  · intro i hi
    have : i < n_args := List.mem_range.mp hi
    omega
  · intro i hi
    exact marshalLoop_lt va n_args i hi
  · intro i hi
    exact marshalLoop_ge va n_args i hi

/-- Concrete variadic arguments for the C9 witness: the write-style test
call of kdbg.c line 815 passes 3 arguments. -/
def c9Va : Nat → Nat := fun i => i + 10

theorem c9_marshalling_in_bounds_witness :
    (runSyscallRequest 4 3 c9Va).number = 4
    ∧ (runSyscallRequest 4 3 c9Va).arg 1 = c9Va 1
    ∧ (runSyscallRequest 4 3 c9Va).arg 7 = 0 := by
  have h := c9_marshalling_in_bounds 4 3 c9Va (by decide)
  exact ⟨h.2.1, h.2.2.1 1 (by decide), h.2.2.2.1 7 (by decide)⟩

end Kdbg
